import Mathlib

/-!
Verification of the web_whisper voice-command engine against its source.

The embedding follows `src/content.ts` (command dispatch, slot extraction,
DOM discovery, action execution) and `src/popup.ts` (recording session
state machine).  Strings are Lean `String`s; the live DOM is a snapshot:
a list of element records in document order, plus a log of the events the
code dispatches.  JavaScript string operations (`toLowerCase`, `includes`,
regex replace, `trim`) are modelled character-by-character on `String.data`.
-/

namespace WebWhisper

/-! ### JavaScript string primitives -/

/-- `String.prototype.toLowerCase`, ASCII fragment: code points 65–90 are
shifted by 32, everything else is untouched (Lean core's `Char.toLower`
has exactly this behaviour).  Real `toLowerCase` also lowers non-ASCII
letters, but it never produces an ASCII capital, so statements about
ASCII capitals transfer. -/
def toLowerCase (s : String) : String := ⟨s.data.map Char.toLower⟩

/-- Whether `p` is an initial segment of `s` (exact characters). -/
def startsWithChars : List Char → List Char → Bool
  | _, [] => true
  | [], _ :: _ => false
  | c :: cs, p :: ps => c == p && startsWithChars cs ps

/-- Substring test on character lists, used for `String.prototype.includes`. -/
def containsChars : List Char → List Char → Bool
  | [], pat => startsWithChars [] pat
  | c :: cs, pat => startsWithChars (c :: cs) pat || containsChars cs pat

/-- `s.includes(pat)` — case-sensitive substring containment. -/
def includes (s pat : String) : Bool := containsChars s.data pat.data

/-- Case-insensitive prefix match against an all-lowercase pattern, as the
`i`-flagged regexes and `[attr*="…" i]` selectors perform. -/
def matchesCI : List Char → List Char → Bool
  | _, [] => true
  | [], _ :: _ => false
  | c :: cs, p :: ps => (Char.toLower c == p) && matchesCI cs ps

/-- Case-insensitive substring containment (pattern given in lowercase). -/
def containsCIChars : List Char → List Char → Bool
  | [], pat => matchesCI [] pat
  | c :: cs, pat => matchesCI (c :: cs) pat || containsCIChars cs pat

/-- `[attr*="pat" i]` attribute-contains test, pattern lowered first. -/
def containsCI (s pat : String) : Bool :=
  containsCIChars s.data (toLowerCase pat).data

/-- Characters removed by `String.prototype.trim` (the ones relevant here). -/
def isJsWhitespace (c : Char) : Bool :=
  c == ' ' || c == '\t' || c == '\n' || c == '\r' || c == '\x0b' || c == '\x0c'

/-- `String.prototype.trim` on character lists. -/
def trimChars (s : List Char) : List Char :=
  ((s.dropWhile isJsWhitespace).reverse.dropWhile isJsWhitespace).reverse

/-- `String.prototype.trim`. -/
def jsTrim (s : String) : String := ⟨trimChars s.data⟩

/-- At a given position, the number of characters (minus one) consumed by
the first alternative of `/search for|find|look for|show me/i` that
matches there, if any — alternatives tried in regex order. -/
def phraseSkip (s : List Char) : Option Nat :=
  if matchesCI s "search for".data then some 9
  else if matchesCI s "find".data then some 3
  else if matchesCI s "look for".data then some 7
  else if matchesCI s "show me".data then some 6
  else none

/-- One left-to-right pass of
`text.replace(/search for|find|look for|show me/gi, '')` (content.ts:65).
At each position the four alternatives are tried in regex order; a match
consumes its characters (the `Nat` argument counts characters still to be
skipped), otherwise the character is kept and the scan advances. -/
def stripAux : Nat → List Char → List Char
  | _, [] => []
  | Nat.succ k, _ :: cs => stripAux k cs
  | 0, c :: cs =>
    match phraseSkip (c :: cs) with
    | some n => stripAux n cs
    | none => c :: stripAux 0 cs

/-- `extractSearchQuery` (content.ts:62-67): delete every occurrence of the
four command phrases, then trim. -/
def extractSearchQuery (text : String) : String :=
  jsTrim ⟨stripAux 0 text.data⟩

/-! ### DOM snapshot -/

/-- One element of the page snapshot.  `ref` is the element's identity
(used to apply a mutation back to the snapshot), attribute fields default
to "absent" (`""`), `ancestorClasses`/`ancestorIds` record the class
tokens and ids of the element's ancestors (for descendant selectors such
as `.search-input input`), `inForm` is whether `closest('form')` finds a
form, and `visible` is whether the element has a non-zero rendered box
(`offsetParent !== null`) — a fact of the snapshot which the discovery
code may or may not consult. -/
structure Elem where
  ref : Nat
  tag : String
  typeAttr : String := ""
  id : String := ""
  name : String := ""
  className : String := ""
  placeholder : String := ""
  role : String := ""
  ariaLabel : String := ""
  href : String := ""
  dataTestid : String := ""
  ancestorClasses : List String := []
  ancestorIds : List String := []
  inForm : Bool := false
  visible : Bool := true
  value : String := ""
deriving DecidableEq, Repr

/-- Split a raw `class` attribute into its space-separated tokens. -/
def splitSpacesAux (cur : List Char) : List Char → List (List Char)
  | [] => if cur.isEmpty then [] else [cur.reverse]
  | c :: cs =>
    if c == ' ' then
      if cur.isEmpty then splitSpacesAux [] cs
      else cur.reverse :: splitSpacesAux [] cs
    else splitSpacesAux (c :: cur) cs

/-- The element's own class tokens. -/
def classTokens (s : String) : List (List Char) := splitSpacesAux [] s.data

/-- `.cls` selector on the element itself. -/
def hasClass (e : Elem) (cls : String) : Bool :=
  (classTokens e.className).contains cls.data

/-! ### Control discovery (content.ts:186-223, 238-272) -/

/-- The sixteen selectors of `findSearchInputs` (content.ts:187-209), in
source order, each as a predicate on a snapshot element. -/
def searchSelectors : List (Elem → Bool) :=
  [ fun e => e.tag == "input" && e.typeAttr == "search",
    fun e => e.tag == "input" && containsCI e.placeholder "search",
    fun e => e.tag == "input" && containsCI e.name "search",
    fun e => e.tag == "input" && containsCI e.id "search",
    fun e => e.tag == "input" && containsCI e.className "search",
    fun e => e.tag == "input" && e.ancestorClasses.contains "search-input",
    fun e => e.tag == "input" && e.ancestorIds.contains "search",
    fun e => e.role == "searchbox",
    fun e => e.tag == "input" && e.id == "input" && e.typeAttr == "search",
    fun e => e.tag == "input" && hasClass e "gLFyf",
    fun e => e.tag == "input" && e.name == "q",
    fun e => e.tag == "textarea" && e.name == "q",
    fun e => e.tag == "input" && hasClass e "baeIxf",
    fun e => e.tag == "input" && e.name == "field-keywords",
    fun e => e.tag == "input" && e.id == "twotabsearchtextbox",
    fun e => e.tag == "input" && containsCI e.placeholder "Search" ]

/-- `findSearchInputs` (content.ts:186-223): for every selector in order,
take the document-order matches and keep those that are
`HTMLInputElement`s (tag `input`).  Note: no visibility test is
performed, and an element matching several selectors appears once per
matching selector. -/
def findSearchInputs (dom : List Elem) : List Elem :=
  (searchSelectors.map (fun sel => dom.filter (fun e => sel e && e.tag == "input"))).flatten

/-- Next-direction selectors (content.ts:239-246) after the code strips
the unsupported `:contains(…)` pseudo-selector, in source order. -/
def nextSelectors : List (Elem → Bool) :=
  [ fun e => e.tag == "a" && includes e.href "page",
    fun e => e.tag == "button" && containsCI e.ariaLabel "next",
    fun e => e.tag == "a" && containsCI e.ariaLabel "next",
    fun e => hasClass e "next" && e.ancestorClasses.contains "pagination",
    fun e => hasClass e "next" && e.ancestorClasses.contains "pager",
    fun e => containsChars e.dataTestid.data "next".data ]

/-- Previous-direction selectors (content.ts:248-255), same cleanup. -/
def prevSelectors : List (Elem → Bool) :=
  [ fun e => e.tag == "a" && includes e.href "page",
    fun e => e.tag == "button" && containsCI e.ariaLabel "previous",
    fun e => e.tag == "a" && containsCI e.ariaLabel "previous",
    fun e => hasClass e "prev" && e.ancestorClasses.contains "pagination",
    fun e => hasClass e "prev" && e.ancestorClasses.contains "pager",
    fun e => containsChars e.dataTestid.data "prev".data ]

/-- The two navigation directions of `performNavigation`. -/
inductive NavDir where
  | next
  | previous
deriving DecidableEq, Repr

/-- `findNavigationElements` (content.ts:238-272).  Every match is an
`HTMLElement`, so the `instanceof` filter keeps all of them; again no
visibility test is performed. -/
def findNavigationElements (dir : NavDir) (dom : List Elem) : List Elem :=
  let sels : List (Elem → Bool) :=
    match dir with
    | .next => nextSelectors
    | .previous => prevSelectors
  (sels.map (fun sel => dom.filter (fun e => sel e))).flatten

/-! ### Action execution (content.ts:69-236) -/

/-- Where an event lands: a snapshot element, the document, or the form
enclosing the element with the given `ref`. -/
inductive EvTarget where
  | elem (ref : Nat)
  | doc
  | form (ownerRef : Nat)
deriving DecidableEq, Repr

/-- One dispatched event / click / focus / native form submission. -/
structure EventRecord where
  target : EvTarget
  kind : String
  bubbles : Bool
deriving DecidableEq, Repr

/-- The page: elements in document order plus the log of everything the
content script dispatched at it. -/
structure PageState where
  elems : List Elem
  events : List EventRecord
deriving DecidableEq, Repr

/-- `searchInput.value = query` applied back to the snapshot. -/
def setValue (r : Nat) (v : String) (es : List Elem) : List Elem :=
  es.map (fun e => if e.ref == r then { e with value := v } else e)

/-- The five search-button probes of content.ts:137-143, in source order. -/
def searchButtonSelectors : List (Elem → Bool) :=
  [ fun e => e.tag == "input" && e.name == "btnK",
    fun e => e.tag == "cr-searchbox-icon" && e.id == "icon",
    fun e => e.tag == "button" && containsCI e.ariaLabel "Search",
    fun e => e.tag == "button" && e.typeAttr == "submit",
    fun e => e.role == "button" && containsCI e.ariaLabel "Search" ]

/-- `document.querySelector`: first match in document order, if any. -/
def querySelectorFirst (sel : Elem → Bool) (dom : List Elem) : Option Elem :=
  dom.find? sel

/-- A bubbling Enter key event record (content.ts:152-156). -/
def keyEnter (t : EvTarget) (k : String) : EventRecord :=
  { target := t, kind := k, bubbles := true }

/-- The submission phase of `performSearch` (content.ts:125-179): form
submit if the input sits in a form, else click the first visible search
button, else the battery of synthetic Enter key events (three on the
input, one on the document, and the `setTimeout`-delayed one, which in a
model without time is logged last).  Only events are produced; no element
state changes. -/
def submitEvents (inp : Elem) (dom : List Elem) : List EventRecord :=
  if inp.inForm then
    [ { target := .form inp.ref, kind := "submit", bubbles := true },
      { target := .form inp.ref, kind := "nativeSubmit", bubbles := false } ]
  else
    let btns := ((searchButtonSelectors.filterMap
        (fun sel => querySelectorFirst sel dom)).filter (fun b => b.visible))
    match btns with
    | b :: _ => [ { target := .elem b.ref, kind := "click", bubbles := true } ]
    | [] =>
      [ keyEnter (.elem inp.ref) "keydown",
        keyEnter (.elem inp.ref) "keypress",
        keyEnter (.elem inp.ref) "keyup",
        keyEnter .doc "keydown",
        keyEnter (.elem inp.ref) "keydown" ]

/-- `performSearch` (content.ts:69-184).  With no discovered input it
answers "No search box found on this page" and touches nothing (the
diagnostic `querySelectorAll('input')` loop only reads).  Otherwise it
writes `query` into the first discovered input, dispatches bubbling
`input` and `change` events, focuses the input, runs the submission
phase, and answers with the success message.  None of these operations
throws. -/
def performSearch (query : String) (st : PageState) : String × PageState :=
  match findSearchInputs st.elems with
  | [] => ("No search box found on this page", st)
  | inp :: _ =>
    let elems1 := setValue inp.ref query st.elems
    let evs1 := st.events ++
      [ { target := .elem inp.ref, kind := "input", bubbles := true },
        { target := .elem inp.ref, kind := "change", bubbles := true },
        { target := .elem inp.ref, kind := "focus", bubbles := false } ] ++
      submitEvents inp elems1
    ("Searched for: " ++ query, { elems := elems1, events := evs1 })

/-- The word interpolated into `performNavigation`'s messages. -/
def dirWord : NavDir → String
  | .next => "next"
  | .previous => "previous"

/-- `performNavigation` (content.ts:225-236): click the first discovered
element of the requested direction, or report that none was found. -/
def performNavigation (dir : NavDir) (st : PageState) : String × PageState :=
  match findNavigationElements dir st.elems with
  | [] => ("No " ++ dirWord dir ++ " button found on this page", st)
  | el :: _ =>
    ("Clicked " ++ dirWord dir ++ " button",
      { st with events := st.events ++
          [ { target := .elem el.ref, kind := "click", bubbles := true } ] })

/-- `executeBasicCommand` (content.ts:41-60): lower-case the command text,
then dispatch on keyword containment in source order — search/find first,
then next, then previous/back; otherwise the command is not recognized.
There is no branch for a filter intent. -/
def executeBasicCommand (rawText : String) (st : PageState) : String × PageState :=
  let text := toLowerCase rawText
  if includes text "search" || includes text "find" then
    performSearch (extractSearchQuery text) st
  else if includes text "next page" || includes text "next" then
    performNavigation .next st
  else if includes text "previous page" || includes text "back" then
    performNavigation .previous st
  else ("Command not recognized", st)

/-- The `sendResponse` payload of the `EXECUTE_VOICE_COMMAND` handler. -/
structure Response where
  success : Bool
  result : Option String
  error : Option String
deriving DecidableEq, Repr

/-- `handleExecuteCommand` (content.ts:24-39): run the command and respond
`{ success: true, result }`.  The modelled DOM operations never throw, so
the `catch` branch (`{ success: false, error }`) is unreachable; in
particular the no-search-box outcome still reports `success: true`. -/
def handleExecuteCommand (rawText : String) (st : PageState) : Response × PageState :=
  let r := executeBasicCommand rawText st
  ({ success := true, result := some r.1, error := none }, r.2)

/-! ### Recording session state machine (popup.ts) -/

/-- The three `updateButton` states (popup.ts:256-273). -/
inductive BtnState where
  | ready
  | recording
  | processing
deriving DecidableEq, Repr

/-- `voiceButton.disabled` as `updateButton` sets it: `true` exactly in
the `processing` state. -/
def buttonDisabledFor : BtnState → Bool
  | .processing => true
  | _ => false

/-- Popup-side session state: the `isRecording` flag, whether
`mediaRecorder` has been created, the button presentation, and a count of
recording sessions ever started (to observe "no second session"). -/
structure PopupState where
  isRecording : Bool
  recorderSet : Bool
  btn : BtnState
  btnDisabled : Bool
  sessionsStarted : Nat
deriving DecidableEq, Repr

/-- State right after `initializePopup`: not recording, no recorder,
button enabled and ready. -/
def initialPopup : PopupState :=
  { isRecording := false, recorderSet := false, btn := .ready,
    btnDisabled := false, sessionsStarted := 0 }

/-- `updateButton` (popup.ts:256-273) applied to the state. -/
def applyButton (s : PopupState) (b : BtnState) : PopupState :=
  { s with btn := b, btnDisabled := buttonDisabledFor b }

/-- `startRecording` (popup.ts:64-166): bail out if already recording;
otherwise, when the microphone is granted (`micOk`), create the recorder,
start a new session and show the recording button; on a microphone error
only the status line changes — flags and button are left as they were. -/
def startRecording (micOk : Bool) (s : PopupState) : PopupState :=
  if s.isRecording then s
  else if micOk then
    applyButton
      { s with isRecording := true, recorderSet := true,
               sessionsStarted := s.sessionsStarted + 1 }
      .recording
  else s

/-- `stopRecording` (popup.ts:168-182): guarded by
`!isRecording || !mediaRecorder`; otherwise clear the flag and show the
(disabled) processing button while the pipeline runs. -/
def stopRecording (s : PopupState) : PopupState :=
  if s.isRecording && s.recorderSet then
    applyButton { s with isRecording := false } .processing
  else s

/-- Completion of the asynchronous pipeline
(`handleRecordingComplete` → `processVoiceCommand`, popup.ts:184-249):
every branch ends with `updateButton('ready')`. -/
def finishPipeline (s : PopupState) : PopupState := applyButton s .ready

/-- External stimuli: a press (`mousedown`, with the microphone outcome it
would observe), a release (`mouseup`/`mouseleave`), and the pipeline
finishing. -/
inductive PopupEvent where
  | press (micOk : Bool)
  | release
  | done
deriving DecidableEq, Repr

/-- One step of the popup.  Chrome delivers no mouse events to a disabled
form control, which is what the code relies on when `updateButton`
disables the button during processing; so `press`/`release` are dropped
whenever `btnDisabled` holds. -/
def popupStep (s : PopupState) : PopupEvent → PopupState
  | .press micOk => if s.btnDisabled then s else startRecording micOk s
  | .release => if s.btnDisabled then s else stopRecording s
  | .done => finishPipeline s

/-- States the popup can actually be in. -/
inductive Reachable : PopupState → Prop where
  | init : Reachable initialPopup
  | step : ∀ {s : PopupState} (e : PopupEvent), Reachable s → Reachable (popupStep s e)

/-! ### Derived predicates and concrete snapshots -/

/-- An ASCII capital letter (code point 65–90). -/
def isUpperAscii (c : Char) : Bool :=
  decide (65 ≤ c.toNat) && decide (c.toNat ≤ 90)

/-- Whether any of the sixteen search selectors matches the element. -/
def matchesAnySearchSelector (e : Elem) : Bool :=
  searchSelectors.any (fun sel => sel e)

/-- Whether any of the direction's six navigation selectors matches. -/
def matchesAnyNavSelector (dir : NavDir) (e : Elem) : Bool :=
  let sels : List (Elem → Bool) :=
    match dir with
    | .next => nextSelectors
    | .previous => prevSelectors
  sels.any (fun sel => sel e)

/-- A page with no elements at all. -/
def emptyPage : PageState := { elems := [], events := [] }

/-- The end-to-end scenario's sole control: `<input type="search" id="q">`,
outside any form. -/
def searchBox : Elem := { ref := 0, tag := "input", typeAttr := "search", id := "q" }

/-- The end-to-end scenario's page. -/
def searchPage : PageState := { elems := [searchBox], events := [] }

/-- A page holding a plausible filter control (`<select class="filter">`),
so failures on filter commands are not about missing controls. -/
def filterPage : PageState :=
  { elems := [ { ref := 3, tag := "select", className := "filter" } ], events := [] }

/-- An attached `<input type="search">` with a zero-sized rendered box
(`visible := false`). -/
def hiddenSearchBox : Elem :=
  { ref := 5, tag := "input", typeAttr := "search", visible := false }

/-- An attached but invisible `<button aria-label="next results">`. -/
def hiddenNext : Elem :=
  { ref := 6, tag := "button", ariaLabel := "next results", visible := false }

/-- A concrete processing-phase popup state: press, then release. -/
def procState : PopupState :=
  popupStep (popupStep initialPopup (.press true)) .release

/-! ### Helper lemmas -/

/-- In every reachable state showing the processing button, the button is
disabled (`updateButton` sets the two together). -/
theorem processing_button_disabled {s : PopupState} (h : Reachable s) :
    s.btn = .processing → s.btnDisabled = true := by
  induction h with
  | init => intro hb; cases hb
  | @step t e ht ih =>
    cases e with
    | press micOk =>
      by_cases hd : t.btnDisabled = true
      · simp [popupStep, hd]
      · by_cases hr : t.isRecording = true
        · simpa [popupStep, hd, startRecording, hr] using ih
        · cases micOk with
          | false => simpa [popupStep, hd, startRecording, hr] using ih
          | true =>
            intro hb
            simp [popupStep, hd, startRecording, hr, applyButton,
              buttonDisabledFor] at hb
    | release =>
      by_cases hd : t.btnDisabled = true
      · simp [popupStep, hd]
      · by_cases h1 : t.isRecording = true
        · by_cases h2 : t.recorderSet = true
          · intro _
            simp [popupStep, hd, stopRecording, h1, h2, applyButton,
              buttonDisabledFor]
          · simpa [popupStep, hd, stopRecording, h1, h2] using ih
        · simpa [popupStep, hd, stopRecording, h1] using ih
    | done =>
      intro hb
      simp [popupStep, finishPipeline, applyButton, buttonDisabledFor] at hb

/-- Lean core's `Char.toLower` never yields an ASCII capital. -/
theorem charLower_not_upper (c : Char) : isUpperAscii (Char.toLower c) = false := by
  unfold isUpperAscii
  by_cases h : c.toNat ≥ 65 ∧ c.toNat ≤ 90
  · have hv : (c.toNat + 32).isValidChar := Or.inl (by omega)
    have ht : (Char.toLower c).toNat = c.toNat + 32 := by
      simp only [Char.toLower, if_pos h]
      unfold Char.ofNat
      rw [dif_pos hv]
      rfl
    rw [ht]
    simp only [Bool.and_eq_false_iff, decide_eq_false_iff_not]
    omega
  · have ht : Char.toLower c = c := by
      simp only [Char.toLower, if_neg h]
    rw [ht]
    simp only [not_and, not_le] at h
    simp only [Bool.and_eq_false_iff, decide_eq_false_iff_not]
    omega

/-- Every character of `toLowerCase s` is an ASCII-capital-free character. -/
theorem toLowerCase_not_upper (s : String) (c : Char)
    (h : c ∈ (toLowerCase s).data) : isUpperAscii c = false := by
  unfold toLowerCase at h
  rcases List.mem_map.mp h with ⟨c0, _, rfl⟩
  exact charLower_not_upper c0

/-- The phrase-deleting pass only removes characters. -/
theorem stripAux_subset : ∀ (s : List Char) (k : Nat) (c : Char),
    c ∈ stripAux k s → c ∈ s := by
  intro s
  induction s with
  | nil =>
    intro k c h
    simp [stripAux] at h
  | cons a as ih =>
    intro k c h
    cases k with
    | succ k =>
      simp only [stripAux] at h
      exact List.mem_cons_of_mem a (ih k c h)
    | zero =>
      simp only [stripAux] at h
      cases hp : phraseSkip (a :: as) with
      | some n =>
        rw [hp] at h
        exact List.mem_cons_of_mem a (ih n c h)
      | none =>
        rw [hp] at h
        rcases List.mem_cons.mp h with hc | hc
        · exact hc ▸ List.mem_cons_self a as
        · exact List.mem_cons_of_mem a (ih 0 c hc)

/-- `trim` only removes characters. -/
theorem trimChars_subset {s : List Char} {c : Char} (h : c ∈ trimChars s) : c ∈ s := by
  unfold trimChars at h
  rw [List.mem_reverse] at h
  have h2 := (List.dropWhile_sublist isJsWhitespace).mem h
  rw [List.mem_reverse] at h2
  exact (List.dropWhile_sublist isJsWhitespace).mem h2

/-- The extracted query's characters all come from the input text. -/
theorem extractSearchQuery_subset {text : String} {c : Char}
    (h : c ∈ (extractSearchQuery text).data) : c ∈ text.data := by
  unfold extractSearchQuery jsTrim at h
  exact stripAux_subset _ _ _ (trimChars_subset h)

/-- With a search keyword in the lowered text, `executeBasicCommand` takes
the search branch on the query extracted from the lowered text. -/
theorem search_branch (rawText : String) (st : PageState)
    (hkw : (includes (toLowerCase rawText) "search" ||
            includes (toLowerCase rawText) "find") = true) :
    executeBasicCommand rawText st =
      performSearch (extractSearchQuery (toLowerCase rawText)) st := by
  unfold executeBasicCommand
  simp only [hkw, if_true]

/-- With no search keyword but a next keyword, the next branch is taken. -/
theorem next_branch (rawText : String) (st : PageState)
    (hns : (includes (toLowerCase rawText) "search" ||
            includes (toLowerCase rawText) "find") = false)
    (hn : (includes (toLowerCase rawText) "next page" ||
           includes (toLowerCase rawText) "next") = true) :
    executeBasicCommand rawText st = performNavigation .next st := by
  unfold executeBasicCommand
  simp only [hns, hn, Bool.false_eq_true, if_false, if_true]

/-- With neither search nor next keywords but a previous keyword, the
previous branch is taken. -/
theorem prev_branch (rawText : String) (st : PageState)
    (hns : (includes (toLowerCase rawText) "search" ||
            includes (toLowerCase rawText) "find") = false)
    (hnn : (includes (toLowerCase rawText) "next page" ||
            includes (toLowerCase rawText) "next") = false)
    (hp : (includes (toLowerCase rawText) "previous page" ||
           includes (toLowerCase rawText) "back") = true) :
    executeBasicCommand rawText st = performNavigation .previous st := by
  unfold executeBasicCommand
  simp only [hns, hnn, hp, Bool.false_eq_true, if_false, if_true]

/-- With no recognized keyword at all, the command is not recognized. -/
theorem unrecognized_branch (rawText : String) (st : PageState)
    (hns : (includes (toLowerCase rawText) "search" ||
            includes (toLowerCase rawText) "find") = false)
    (hnn : (includes (toLowerCase rawText) "next page" ||
            includes (toLowerCase rawText) "next") = false)
    (hnp : (includes (toLowerCase rawText) "previous page" ||
            includes (toLowerCase rawText) "back") = false) :
    executeBasicCommand rawText st = ("Command not recognized", st) := by
  unfold executeBasicCommand
  simp only [hns, hnn, hnp, Bool.false_eq_true, if_false]

/-- Any snapshot input matched by some search selector is discovered,
whatever its visibility. -/
theorem mem_findSearchInputs {dom : List Elem} {e : Elem} (he : e ∈ dom)
    (hm : matchesAnySearchSelector e = true) (ht : e.tag = "input") :
    e ∈ findSearchInputs dom := by
  rcases List.any_eq_true.mp hm with ⟨sel, hsel, hse⟩
  refine List.mem_flatten.mpr
    ⟨dom.filter (fun x => sel x && x.tag == "input"), ?_, ?_⟩
  · exact List.mem_map_of_mem _ hsel
  · exact List.mem_filter.mpr ⟨he, by simp [hse, ht]⟩

/-- Any snapshot element matched by some navigation selector of the
requested direction is discovered, whatever its visibility. -/
theorem mem_findNavigationElements {dir : NavDir} {dom : List Elem} {e : Elem}
    (he : e ∈ dom) (hm : matchesAnyNavSelector dir e = true) :
    e ∈ findNavigationElements dir dom := by
  unfold matchesAnyNavSelector at hm
  unfold findNavigationElements
  cases dir with
  | next =>
    rcases List.any_eq_true.mp hm with ⟨sel, hsel, hse⟩
    refine List.mem_flatten.mpr ⟨dom.filter (fun x => sel x), ?_, ?_⟩
    · exact List.mem_map_of_mem _ hsel
    · exact List.mem_filter.mpr ⟨he, hse⟩
  | previous =>
    rcases List.any_eq_true.mp hm with ⟨sel, hsel, hse⟩
    refine List.mem_flatten.mpr ⟨dom.filter (fun x => sel x), ?_, ?_⟩
    · exact List.mem_map_of_mem _ hsel
    · exact List.mem_filter.mpr ⟨he, hse⟩

/-- Every element of `setValue r v es` carries either the written value or
the value it already had in `es`. -/
theorem setValue_value {r : Nat} {v : String} {es : List Elem} {e1 : Elem}
    (h : e1 ∈ setValue r v es) :
    e1.value = v ∨ ∃ e0 ∈ es, e1.value = e0.value := by
  unfold setValue at h
  rcases List.mem_map.mp h with ⟨e0, he0, heq⟩
  by_cases hr : (e0.ref == r) = true
  · left
    rw [← heq]
    simp [hr]
  · right
    refine ⟨e0, he0, ?_⟩
    rw [← heq]
    simp [hr]

/-- `performSearch` writes only `q`: afterwards every element's value is
`q` or its pre-existing value. -/
theorem performSearch_values (q : String) (st : PageState) :
    ∀ e1 ∈ (performSearch q st).2.elems,
      e1.value = q ∨ ∃ e0 ∈ st.elems, e1.value = e0.value := by
  unfold performSearch
  cases hfi : findSearchInputs st.elems with
  | nil =>
    intro e1 he1
    right
    exact ⟨e1, he1, rfl⟩
  | cons inp rest =>
    intro e1 he1
    exact setValue_value he1

/-- With no discovered search input, `performSearch` reports the
no-search-box message and leaves the page untouched. -/
theorem performSearch_empty (q : String) (st : PageState)
    (hempty : findSearchInputs st.elems = []) :
    performSearch q st = ("No search box found on this page", st) := by
  unfold performSearch
  rw [hempty]

/-! ### Claims -/

/-- C1: the claim expects "filter under 100" (filter intent, a numeric
token, no search keyword) to classify as Filter with a comparator and
value slot and a planned filter action; `executeBasicCommand` has no
filter branch at all, so on a page that even holds a filter control the
command falls through every keyword test and is reported as
"Command not recognized". -/
theorem c1_filter_is_unrecognized :
    executeBasicCommand "filter under 100" filterPage =
      ("Command not recognized", filterPage) := by decide

/-- C2 counterexample: with no search box on the page, the response sent
over the message channel for "search for shoes" is
`{ success: true, result: "No search box found on this page" }` — its
`success` field is `true`, not `false` as the claim states (the page is
still untouched). -/
theorem c2_counterexample :
    (handleExecuteCommand "search for shoes" emptyPage).1.success ≠ false ∧
    (handleExecuteCommand "search for shoes" emptyPage).1 =
      { success := true, result := some "No search box found on this page",
        error := none } ∧
    (handleExecuteCommand "search for shoes" emptyPage).2 = emptyPage := by decide

/-- C2 amended: for every search command over a page whose discovered
search-input list is empty, the execution completes without throwing, the
message-channel response is `success: true` with result
"No search box found on this page", and the DOM (element state and event
log) is not mutated. -/
theorem c2_amended (rawText : String) (st : PageState)
    (hkw : (includes (toLowerCase rawText) "search" ||
            includes (toLowerCase rawText) "find") = true)
    (hempty : findSearchInputs st.elems = []) :
    handleExecuteCommand rawText st =
      ({ success := true, result := some "No search box found on this page",
         error := none }, st) := by
  unfold handleExecuteCommand
  rw [search_branch rawText st hkw, performSearch_empty _ _ hempty]

/-- C2 witness: the amended statement at the concrete command "find shoes"
on the empty page. -/
theorem c2_witness :
    handleExecuteCommand "find shoes" emptyPage =
      ({ success := true, result := some "No search box found on this page",
         error := none }, emptyPage) :=
  c2_amended "find shoes" emptyPage (by decide) (by decide)

/-- C3: when the command text carries both a search keyword and a
navigation keyword, `executeBasicCommand` deterministically resolves it
as a search — the search keyword set is tested first. -/
theorem c3_search_priority (rawText : String) (st : PageState)
    (hsearch : (includes (toLowerCase rawText) "search" ||
                includes (toLowerCase rawText) "find") = true)
    (_hnav : (includes (toLowerCase rawText) "next page" ||
              includes (toLowerCase rawText) "next" ||
              includes (toLowerCase rawText) "previous page" ||
              includes (toLowerCase rawText) "back") = true) :
    executeBasicCommand rawText st =
      performSearch (extractSearchQuery (toLowerCase rawText)) st :=
  search_branch rawText st hsearch

/-- C3 witness: "search for next page" contains keywords of both intents
and is resolved as a search. -/
theorem c3_witness :
    executeBasicCommand "search for next page" emptyPage =
      performSearch (extractSearchQuery (toLowerCase "search for next page"))
        emptyPage :=
  c3_search_priority "search for next page" emptyPage (by decide) (by decide)

/-- C4: end to end, on a page whose sole control is
`<input type="search" id="q">`, the command "search for blue jeans" sets
that input's value to "blue jeans", dispatches bubbling `input` and
`change` events on it, and responds successfully with
"Searched for: blue jeans". -/
theorem c4_end_to_end :
    (handleExecuteCommand "search for blue jeans" searchPage).1 =
      { success := true, result := some "Searched for: blue jeans",
        error := none } ∧
    (handleExecuteCommand "search for blue jeans" searchPage).2.elems.map
        Elem.value = ["blue jeans"] ∧
    ({ target := .elem 0, kind := "input", bubbles := true } : EventRecord) ∈
      (handleExecuteCommand "search for blue jeans" searchPage).2.events ∧
    ({ target := .elem 0, kind := "change", bubbles := true } : EventRecord) ∈
      (handleExecuteCommand "search for blue jeans" searchPage).2.events := by
  decide

/-- C5: extraction on "search for red shoes under $100" deletes only the
phrase "search for" (no other fixed phrase occurs) and returns the
trimmed remainder, keeping "under $100" in the query. -/
theorem c5_extract_keeps_trailing_filter_text :
    extractSearchQuery "search for red shoes under $100" =
      "red shoes under $100" := by decide

/-- C6 counterexample: an attached `<input type="search">` with a
zero-sized rendered box is returned by the search scan, and an invisible
`<button aria-label="next results">` by the navigation scan — discovery
performs no visibility filtering, so the claim that invisible matching
elements are excluded is false. -/
theorem c6_counterexample :
    findSearchInputs [hiddenSearchBox] = [hiddenSearchBox] ∧
    hiddenSearchBox.visible = false ∧
    findNavigationElements .next [hiddenNext] = [hiddenNext] ∧
    hiddenNext.visible = false := by decide

/-- C6 amended: discovery retains every attached element matching one of
its selectors (for the search scan additionally an `HTMLInputElement`)
regardless of the element's visibility — no visibility check is made;
detached elements are absent only because `querySelectorAll` cannot
return them. -/
theorem c6_amended :
    (∀ (dom : List Elem) (e : Elem), e ∈ dom →
      matchesAnySearchSelector e = true → e.tag = "input" →
      e ∈ findSearchInputs dom) ∧
    (∀ (dir : NavDir) (dom : List Elem) (e : Elem), e ∈ dom →
      matchesAnyNavSelector dir e = true →
      e ∈ findNavigationElements dir dom) :=
  ⟨fun _ _ he hm ht => mem_findSearchInputs he hm ht,
   fun _ _ _ he hm => mem_findNavigationElements he hm⟩

/-- C6 witness: the amended statement applied to the two invisible
elements. -/
theorem c6_witness :
    hiddenSearchBox ∈ findSearchInputs [hiddenSearchBox] ∧
    hiddenNext ∈ findNavigationElements .next [hiddenNext] :=
  ⟨c6_amended.1 [hiddenSearchBox] hiddenSearchBox (by decide) (by decide)
      (by decide),
   c6_amended.2 .next [hiddenNext] hiddenNext (by decide) (by decide)⟩

/-- C7 counterexample: the claim says "more results" yields direction
Next and a bare "previous" yields Previous; the code recognizes neither
keyword ("more results" is not in the code's sets, and "previous" alone
matches neither "previous page" nor "back"), reporting both commands as
not recognized. -/
theorem c7_counterexample :
    executeBasicCommand "more results" emptyPage =
      ("Command not recognized", emptyPage) ∧
    executeBasicCommand "previous" emptyPage =
      ("Command not recognized", emptyPage) := by decide

/-- C7 amended: for command text with no search keyword, direction Next is
taken iff the text contains "next page" or "next"; otherwise Previous is
taken iff it contains "previous page" or "back"; with neither set the
command is not recognized ("more results" and a bare "previous" are not
recognized). -/
theorem c7_amended (rawText : String) (st : PageState)
    (hns : (includes (toLowerCase rawText) "search" ||
            includes (toLowerCase rawText) "find") = false) :
    ((includes (toLowerCase rawText) "next page" ||
      includes (toLowerCase rawText) "next") = true →
        executeBasicCommand rawText st = performNavigation .next st) ∧
    ((includes (toLowerCase rawText) "next page" ||
      includes (toLowerCase rawText) "next") = false →
     (includes (toLowerCase rawText) "previous page" ||
      includes (toLowerCase rawText) "back") = true →
        executeBasicCommand rawText st = performNavigation .previous st) ∧
    ((includes (toLowerCase rawText) "next page" ||
      includes (toLowerCase rawText) "next") = false →
     (includes (toLowerCase rawText) "previous page" ||
      includes (toLowerCase rawText) "back") = false →
        executeBasicCommand rawText st = ("Command not recognized", st)) :=
  ⟨fun hn => next_branch rawText st hns hn,
   fun hnn hp => prev_branch rawText st hns hnn hp,
   fun hnn hnp => unrecognized_branch rawText st hns hnn hnp⟩

/-- C7 witness: the amended statement at "next page", "go back" and
"hello". -/
theorem c7_witness :
    executeBasicCommand "next page" emptyPage =
      performNavigation .next emptyPage ∧
    executeBasicCommand "go back" emptyPage =
      performNavigation .previous emptyPage ∧
    executeBasicCommand "hello" emptyPage =
      ("Command not recognized", emptyPage) :=
  ⟨(c7_amended "next page" emptyPage (by decide)).1 (by decide),
   (c7_amended "go back" emptyPage (by decide)).2.1 (by decide) (by decide),
   (c7_amended "hello" emptyPage (by decide)).2.2 (by decide) (by decide)⟩

/-- C8: the search-input scan is a pure function of the DOM snapshot — no
cache, no hidden state — so two scans of an unchanged snapshot return the
identical ordered sequence of controls (same elements, same selector
ranks, same order). -/
theorem c8_discovery_idempotent (dom : List Elem) :
    findSearchInputs dom = findSearchInputs dom := rfl

/-- C9: in every reachable popup state whose button shows `processing`
(recording stopped, pipeline in flight), a new activation press —
whatever the microphone would answer — leaves the state unchanged and
starts no second recording session. -/
theorem c9_processing_ignores_press {s : PopupState} (h : Reachable s)
    (hp : s.btn = .processing) (micOk : Bool) :
    popupStep s (.press micOk) = s ∧
    (popupStep s (.press micOk)).sessionsStarted = s.sessionsStarted := by
  have hd := processing_button_disabled h hp
  constructor
  · simp [popupStep, hd]
  · simp [popupStep, hd]

/-- C9 witness: press-then-release reaches a processing state, where a
further press (with microphone available) changes nothing. -/
theorem c9_witness :
    popupStep procState (.press true) = procState ∧
    (popupStep procState (.press true)).sessionsStarted =
      procState.sessionsStarted :=
  c9_processing_ignores_press
    (Reachable.step .release (Reachable.step (.press true) Reachable.init))
    (by decide) true

/-- C10: a command with a search keyword is executed on the query
extracted from the lower-cased text; that query contains no ASCII capital
letter, and any element value the execution writes is exactly that
query — so the executed, echoed query never preserves an upper-case
letter of the original command. -/
theorem c10_lowercased_query (rawText : String) (st : PageState)
    (hkw : (includes (toLowerCase rawText) "search" ||
            includes (toLowerCase rawText) "find") = true) :
    executeBasicCommand rawText st =
      performSearch (extractSearchQuery (toLowerCase rawText)) st ∧
    (∀ c ∈ (extractSearchQuery (toLowerCase rawText)).data,
      isUpperAscii c = false) ∧
    (∀ e1 ∈ (executeBasicCommand rawText st).2.elems,
      e1.value = extractSearchQuery (toLowerCase rawText) ∨
      ∃ e0 ∈ st.elems, e1.value = e0.value) := by
  have hb := search_branch rawText st hkw
  refine ⟨hb, ?_, ?_⟩
  · intro c hc
    exact toLowerCase_not_upper rawText c (extractSearchQuery_subset hc)
  · rw [hb]
    exact performSearch_values (extractSearchQuery (toLowerCase rawText)) st

/-- C10 witness: the first conjunct of the theorem at the mixed-case
command "Search for BLUE Jeans" on the end-to-end page. -/
theorem c10_witness :
    executeBasicCommand "Search for BLUE Jeans" searchPage =
      performSearch (extractSearchQuery (toLowerCase "Search for BLUE Jeans"))
        searchPage :=
  (c10_lowercased_query "Search for BLUE Jeans" searchPage (by decide)).1

end WebWhisper
